import Mathlib

/-!
Verification of the login defense guard middleware of the epefi backend
(`src/middleware/validation.ts`): the in-memory per-client login attempt
tracker with escalating lockouts (`validateLogin`), the outcome recorder
(`trackLoginResult`), and the periodic sweep (`cleanOldAttempts`).

Timestamps are modelled as `Int` milliseconds (the value of
`Date.prototype.getTime`).  The module-level `loginAttempts` map is
modelled as a function from client identifiers to optional records, and
each operation is a pure state transformer on that map.
-/

namespace EpefiGuard

/-- One entry of the `loginAttempts` map:
`{ count: number; lastAttempt: Date; blockedUntil?: Date }`. -/
structure AttemptRecord where
  count : Nat
  lastAttempt : Int
  blockedUntil : Option Int
deriving DecidableEq, Repr

/-- The `loginAttempts` map: client identifier (IP string) to record. -/
def AttemptMap : Type := String → Option AttemptRecord

/-- Map update: `loginAttempts.set(ip, r)`. -/
def mapSet (m : AttemptMap) (ip : String) (r : AttemptRecord) : AttemptMap :=
  fun k => if k = ip then some r else m k

/-- Map removal: `loginAttempts.delete(ip)`. -/
def mapDelete (m : AttemptMap) (ip : String) : AttemptMap :=
  fun k => if k = ip then none else m k

/-- `Math.ceil (a / b)` for natural `a b` (used with positive `b`). -/
def ceilNat (a b : Nat) : Nat := (a + b - 1) / b

/-- The decision the middleware drives: call `next()` (Admit), answer
429 with a `retryAfter` value in seconds (Reject), or answer 400 with the
validation error list (Invalid). -/
inductive Decision where
  | Admit : Decision
  | Reject (retryAfterSeconds : Nat) : Decision
  | Invalid (errors : List String) : Decision
deriving DecidableEq, Repr

/-- Whitespace characters of the regex class `\s` (the common ones). -/
def isWsChar (c : Char) : Bool :=
  c = ' ' || c = '\t' || c = '\n' || c = '\r' || c = '\x0b' || c = '\x0c'

/-- Whether a character suffix list has some dot at an interior position
(neither the first nor the last character). -/
def hasInteriorDot (l : List Char) : Bool :=
  ((l.drop 1).dropLast).contains '.'

/-- The test `/^[^\s@]+@[^\s@]+\.[^\s@]+$/.test(email)`: exactly one `@`,
a nonempty whitespace-free local part, and a nonempty whitespace-free
rest that decomposes around some dot with nonempty sides. -/
def emailMatches (s : String) : Bool :=
  let cs := s.data
  let loc := cs.takeWhile (fun c => c ≠ '@')
  let rest := (cs.dropWhile (fun c => c ≠ '@')).drop 1
  cs.count '@' = 1 &&
  !loc.isEmpty && loc.all (fun c => !isWsChar c) &&
  !rest.isEmpty && rest.all (fun c => !isWsChar c) &&
  hasInteriorDot rest

/-- The shape checks of `validateLogin` on `(email, password)`, in source
order: required fields, email pattern, length bounds. -/
def validationErrors (email pwd : String) : List String :=
  (if email = "" then ["Email es requerido"] else []) ++
  (if pwd = "" then ["Contraseña es requerida"] else []) ++
  (if email ≠ "" && !emailMatches email then ["Formato de email inválido"] else []) ++
  (if email ≠ "" && email.length > 254 then ["Email demasiado largo"] else []) ++
  (if pwd ≠ "" && pwd.length > 128 then ["Contraseña demasiado larga"] else [])

/-- `loginAttempts.get(clientIP) || { count: 0, lastAttempt: now }`
followed by `count++; lastAttempt = now` (shared by the 400 branch of
`validateLogin` and the 401/403 branch of `trackLoginResult`). -/
def bumpRecord (o : Option AttemptRecord) (now : Int) : AttemptRecord :=
  match o with
  | some a => { a with count := a.count + 1, lastAttempt := now }
  | none => { count := 1, lastAttempt := now, blockedUntil := none }

/-- Tail of `validateLogin` once the rate-limit branches have not
returned: compute the shape errors; on errors, bump the (possibly just
purged) record and answer Invalid; otherwise call `next()` (Admit). -/
def shapePhase (m : AttemptMap) (ip email pwd : String) (now : Int) :
    Decision × AttemptMap :=
  if validationErrors email pwd = [] then
    (Decision.Admit, m)
  else
    (Decision.Invalid (validationErrors email pwd),
     mapSet m ip (bumpRecord (m ip) now))

/-- The body of the `if (attempt)` block of `validateLogin` after the
active-lockout test has failed: idle reset (strictly more than 15 minutes
since `lastAttempt` purges the record and falls through), else escalation
when `count >= 5` (with `blockMinutes = min(15 * ceil(count / 5), 60)`),
else fall through to the shape checks. -/
def gateTail (m : AttemptMap) (ip : String) (a : AttemptRecord)
    (email pwd : String) (now : Int) : Decision × AttemptMap :=
  if 15 * 60 * 1000 < now - a.lastAttempt then
    shapePhase (mapDelete m ip) ip email pwd now
  else if 5 ≤ a.count then
    (Decision.Reject (min (15 * ceilNat a.count 5) 60 * 60),
     mapSet m ip
       { a with
         blockedUntil := some (now + (min (15 * ceilNat a.count 5) 60 * 60 * 1000 : Nat)),
         lastAttempt := now })
  else
    shapePhase m ip email pwd now

/-- The `if (attempt)` block of `validateLogin`: when actively blocked
(`blockedUntil` set and `now < blockedUntil`) answer 429 with
`retryAfter = 60 * Math.ceil((blockedUntil - now) / 60000)` and no
mutation; otherwise continue with the idle/escalation branches. -/
def blockPhase (m : AttemptMap) (ip : String) (a : AttemptRecord)
    (email pwd : String) (now : Int) : Decision × AttemptMap :=
  match a.blockedUntil with
  | some b =>
    if now < b then
      (Decision.Reject (ceilNat (b - now).toNat (60 * 1000) * 60), m)
    else
      gateTail m ip a email pwd now
  | none => gateTail m ip a email pwd now

/-- `validateLogin` (src/middleware/validation.ts): look up the record;
run the lockout / idle-reset / escalation branches, then the shape
checks.  Returns the decision and the updated `loginAttempts` map. -/
def validateLogin (m : AttemptMap) (ip email pwd : String) (now : Int) :
    Decision × AttemptMap :=
  match m ip with
  | none => shapePhase m ip email pwd now
  | some a => blockPhase m ip a email pwd now

/-- `trackLoginResult` (src/middleware/validation.ts), as the effect of
the observed response status on the map: 200/201 delete the record,
401/403 bump it, anything else leaves the map alone. -/
def trackLoginResult (m : AttemptMap) (ip : String) (status : Nat)
    (now : Int) : AttemptMap :=
  if status = 200 ∨ status = 201 then
    mapDelete m ip
  else if status = 401 ∨ status = 403 then
    mapSet m ip (bumpRecord (m ip) now)
  else
    m

/-- `cleanOldAttempts` (src/middleware/validation.ts): drop every record
whose `lastAttempt` is strictly more than 24 hours before `now`. -/
def cleanOldAttempts (m : AttemptMap) (now : Int) : AttemptMap :=
  fun ip =>
    match m ip with
    | some a =>
      if 24 * 60 * 60 * 1000 < now - a.lastAttempt then none else some a
    | none => none

/-- The status the login controller (src/modules/auth/controller.ts)
answers when the fetch to the identity provider fails with a
connectivity `TypeError`: 503; any other verification error is 401. -/
def loginErrorStatus (isFetchConnectivityError : Bool) : Nat :=
  if isFetchConnectivityError then 503 else 401

/-- The status the login controller answers for a deactivated user
(`!userData?.activo`): 403. -/
def disabledUserStatus : Nat := 403

/-- One guard operation, for reasoning about operation sequences. -/
inductive GuardOp where
  | check (ip email pwd : String) (now : Int) : GuardOp
  | outcome (ip : String) (status : Nat) (now : Int) : GuardOp
  | sweep (now : Int) : GuardOp

/-- The timestamp an operation carries. -/
def opTime : GuardOp → Int
  | .check _ _ _ n => n
  | .outcome _ _ n => n
  | .sweep n => n

/-- Apply one guard operation to the map. -/
def applyOp (m : AttemptMap) : GuardOp → AttemptMap
  | .check ip email pwd now => (validateLogin m ip email pwd now).2
  | .outcome ip status now => trackLoginResult m ip status now
  | .sweep now => cleanOldAttempts m now

/-- Apply a sequence of guard operations, left to right. -/
def applyOps (m : AttemptMap) : List GuardOp → AttemptMap
  | [] => m
  | op :: ops => applyOps (applyOp m op) ops

/-- The operation timestamps are non-decreasing and bounded below by `t`
(the guard reads a monotone clock). -/
def timesMono : Int → List GuardOp → Prop
  | _, [] => True
  | t, op :: ops => t ≤ opTime op ∧ timesMono (opTime op) ops

/-- The record of `ip` survives every operation of the sequence. -/
def aliveThrough (ip : String) : AttemptMap → List GuardOp → Prop
  | _, [] => True
  | m, op :: ops =>
    (applyOp m op ip).isSome = true ∧ aliveThrough ip (applyOp m op) ops

/-! ## Branch evaluation lemmas -/

lemma mapSet_self (m : AttemptMap) (ip : String) (r : AttemptRecord) :
    mapSet m ip r ip = some r := by
  unfold mapSet
  rw [if_pos rfl]

lemma mapSet_ne (m : AttemptMap) (ip k : String) (r : AttemptRecord)
    (h : k ≠ ip) : mapSet m ip r k = m k := by
  unfold mapSet
  rw [if_neg h]

lemma mapDelete_self (m : AttemptMap) (ip : String) :
    mapDelete m ip ip = none := by
  unfold mapDelete
  rw [if_pos rfl]

lemma mapDelete_ne (m : AttemptMap) (ip k : String) (h : k ≠ ip) :
    mapDelete m ip k = m k := by
  unfold mapDelete
  rw [if_neg h]

lemma validateLogin_none (m : AttemptMap) (ip email pwd : String)
    (now : Int) (hm : m ip = none) :
    validateLogin m ip email pwd now = shapePhase m ip email pwd now := by
  unfold validateLogin
  rw [hm]

lemma validateLogin_some (m : AttemptMap) (ip email pwd : String)
    (now : Int) (a : AttemptRecord) (hm : m ip = some a) :
    validateLogin m ip email pwd now = blockPhase m ip a email pwd now := by
  unfold validateLogin
  rw [hm]

lemma blockPhase_active (m : AttemptMap) (ip email pwd : String)
    (now : Int) (a : AttemptRecord) (b : Int)
    (hb : a.blockedUntil = some b) (hlt : now < b) :
    blockPhase m ip a email pwd now =
      (Decision.Reject (ceilNat (b - now).toNat (60 * 1000) * 60), m) := by
  unfold blockPhase
  rw [hb]
  exact if_pos hlt

lemma blockPhase_expired (m : AttemptMap) (ip email pwd : String)
    (now : Int) (a : AttemptRecord) (b : Int)
    (hb : a.blockedUntil = some b) (hge : b ≤ now) :
    blockPhase m ip a email pwd now = gateTail m ip a email pwd now := by
  unfold blockPhase
  rw [hb]
  exact if_neg (not_lt.mpr hge)

lemma blockPhase_noBlock (m : AttemptMap) (ip email pwd : String)
    (now : Int) (a : AttemptRecord) (hb : a.blockedUntil = none) :
    blockPhase m ip a email pwd now = gateTail m ip a email pwd now := by
  unfold blockPhase
  rw [hb]

lemma blockPhase_inactive (m : AttemptMap) (ip email pwd : String)
    (now : Int) (a : AttemptRecord)
    (hnb : ∀ b, a.blockedUntil = some b → b ≤ now) :
    blockPhase m ip a email pwd now = gateTail m ip a email pwd now := by
  cases hb : a.blockedUntil with
  | none => exact blockPhase_noBlock m ip email pwd now a hb
  | some b => exact blockPhase_expired m ip email pwd now a b hb (hnb b hb)

lemma gateTail_idle (m : AttemptMap) (ip email pwd : String) (now : Int)
    (a : AttemptRecord) (hid : 15 * 60 * 1000 < now - a.lastAttempt) :
    gateTail m ip a email pwd now =
      shapePhase (mapDelete m ip) ip email pwd now := by
  unfold gateTail
  rw [if_pos hid]

lemma gateTail_escalate (m : AttemptMap) (ip email pwd : String)
    (now : Int) (a : AttemptRecord)
    (hid : now - a.lastAttempt ≤ 15 * 60 * 1000) (hc : 5 ≤ a.count) :
    gateTail m ip a email pwd now =
      (Decision.Reject (min (15 * ceilNat a.count 5) 60 * 60),
       mapSet m ip
         { a with
           blockedUntil :=
             some (now + (min (15 * ceilNat a.count 5) 60 * 60 * 1000 : Nat)),
           lastAttempt := now }) := by
  unfold gateTail
  rw [if_neg (not_lt.mpr hid), if_pos hc]

lemma gateTail_low (m : AttemptMap) (ip email pwd : String) (now : Int)
    (a : AttemptRecord) (hid : now - a.lastAttempt ≤ 15 * 60 * 1000)
    (hc : a.count < 5) :
    gateTail m ip a email pwd now = shapePhase m ip email pwd now := by
  unfold gateTail
  rw [if_neg (not_lt.mpr hid), if_neg (not_le.mpr hc)]

lemma shapePhase_ok (m : AttemptMap) (ip email pwd : String) (now : Int)
    (he : validationErrors email pwd = []) :
    shapePhase m ip email pwd now = (Decision.Admit, m) := by
  unfold shapePhase
  rw [if_pos he]

lemma shapePhase_bad (m : AttemptMap) (ip email pwd : String) (now : Int)
    (he : validationErrors email pwd ≠ []) :
    shapePhase m ip email pwd now =
      (Decision.Invalid (validationErrors email pwd),
       mapSet m ip (bumpRecord (m ip) now)) := by
  unfold shapePhase
  rw [if_neg he]

lemma cleanOldAttempts_eval (m : AttemptMap) (now : Int) (ip : String)
    (a : AttemptRecord) (hm : m ip = some a) :
    cleanOldAttempts m now ip =
      if 24 * 60 * 60 * 1000 < now - a.lastAttempt then none
      else some a := by
  unfold cleanOldAttempts
  rw [hm]

lemma cleanOldAttempts_none (m : AttemptMap) (now : Int) (ip : String)
    (hm : m ip = none) : cleanOldAttempts m now ip = none := by
  unfold cleanOldAttempts
  rw [hm]

lemma fifteen_le_blockMinutes (c : Nat) (hc : 5 ≤ c) :
    15 ≤ min (15 * ceilNat c 5) 60 := by
  unfold ceilNat
  omega

/-! ## Frame lemmas: operations touch only their own key -/

lemma shapePhase_snd_ne (m : AttemptMap) (ip email pwd : String)
    (now : Int) (k : String) (h : k ≠ ip) :
    (shapePhase m ip email pwd now).2 k = m k := by
  unfold shapePhase
  split
  · rfl
  · exact mapSet_ne m ip k _ h

lemma gateTail_snd_ne (m : AttemptMap) (ip : String) (a : AttemptRecord)
    (email pwd : String) (now : Int) (k : String) (h : k ≠ ip) :
    (gateTail m ip a email pwd now).2 k = m k := by
  unfold gateTail
  split
  · rw [shapePhase_snd_ne _ ip email pwd now k h]
    exact mapDelete_ne m ip k h
  · split
    · exact mapSet_ne m ip k _ h
    · exact shapePhase_snd_ne m ip email pwd now k h

lemma blockPhase_snd_ne (m : AttemptMap) (ip : String) (a : AttemptRecord)
    (email pwd : String) (now : Int) (k : String) (h : k ≠ ip) :
    (blockPhase m ip a email pwd now).2 k = m k := by
  cases hb : a.blockedUntil with
  | none =>
    rw [blockPhase_noBlock m ip email pwd now a hb]
    exact gateTail_snd_ne m ip a email pwd now k h
  | some b =>
    by_cases hlt : now < b
    · rw [blockPhase_active m ip email pwd now a b hb hlt]
    · rw [blockPhase_expired m ip email pwd now a b hb (not_lt.mp hlt)]
      exact gateTail_snd_ne m ip a email pwd now k h

lemma validateLogin_snd_ne (m : AttemptMap) (ip email pwd : String)
    (now : Int) (k : String) (h : k ≠ ip) :
    (validateLogin m ip email pwd now).2 k = m k := by
  cases hm : m ip with
  | none =>
    rw [validateLogin_none m ip email pwd now hm]
    exact shapePhase_snd_ne m ip email pwd now k h
  | some a =>
    rw [validateLogin_some m ip email pwd now a hm]
    exact blockPhase_snd_ne m ip a email pwd now k h

lemma trackLoginResult_ne (m : AttemptMap) (ip : String) (status : Nat)
    (now : Int) (k : String) (h : k ≠ ip) :
    trackLoginResult m ip status now k = m k := by
  unfold trackLoginResult
  split
  · exact mapDelete_ne m ip k h
  · split
    · exact mapSet_ne m ip k _ h
    · rfl

/-! ## Monotonicity of `blockedUntil` along operation sequences -/

/-- Invariant carried along a run: the record of `ip` is present, any
lockout it holds is at least `b`, and when it holds no lockout the clock
has already reached `b` (so any future lockout lands past `b`). -/
def BlockInv (b t : Int) (o : Option AttemptRecord) : Prop :=
  ∃ r, o = some r ∧ (∀ b2, r.blockedUntil = some b2 → b ≤ b2) ∧
    (r.blockedUntil = none → b ≤ t)

lemma blockInv_gateTail (b : Int) (m : AttemptMap) (ip : String)
    (r : AttemptRecord) (email pwd : String) (now : Int)
    (hr : m ip = some r) (hble : b ≤ now)
    (hsome : ∀ b2, r.blockedUntil = some b2 → b ≤ b2)
    (hs : ((gateTail m ip r email pwd now).2 ip).isSome = true) :
    BlockInv b now ((gateTail m ip r email pwd now).2 ip) := by
  by_cases hid : 15 * 60 * 1000 < now - r.lastAttempt
  · -- idle purge, then the shape phase over the purged map
    rw [gateTail_idle m ip email pwd now r hid] at hs ⊢
    by_cases he : validationErrors email pwd = []
    · rw [shapePhase_ok _ ip email pwd now he] at hs
      dsimp only at hs
      rw [mapDelete_self] at hs
      exact absurd hs (by decide)
    · rw [shapePhase_bad _ ip email pwd now he] at hs ⊢
      dsimp only at hs ⊢
      have hbump : bumpRecord (mapDelete m ip ip) now =
          ⟨1, now, none⟩ := by
        rw [mapDelete_self]
        rfl
      rw [hbump, mapSet_self]
      exact ⟨⟨1, now, none⟩, rfl, fun b2 hb2 => by simp at hb2,
        fun _ => hble⟩
  · by_cases hc : 5 ≤ r.count
    · -- escalation: the new lockout lies strictly past `now ≥ b`
      rw [gateTail_escalate m ip email pwd now r (not_lt.mp hid) hc] at hs ⊢
      dsimp only at hs ⊢
      rw [mapSet_self]
      refine ⟨_, rfl, fun b2 hb2 => ?_, fun hn => by simp at hn⟩
      have h2 := Option.some.inj hb2
      omega
    · -- still tracking: the shape phase either keeps or bumps the record
      rw [gateTail_low m ip email pwd now r (not_lt.mp hid) (not_le.mp hc)]
        at hs ⊢
      by_cases he : validationErrors email pwd = []
      · rw [shapePhase_ok m ip email pwd now he] at hs ⊢
        exact ⟨r, hr, hsome, fun _ => hble⟩
      · rw [shapePhase_bad m ip email pwd now he] at hs ⊢
        dsimp only at hs ⊢
        have hbump : bumpRecord (m ip) now =
            { r with count := r.count + 1, lastAttempt := now } := by
          rw [hr]
          rfl
        rw [hbump, mapSet_self]
        exact ⟨{ r with count := r.count + 1, lastAttempt := now }, rfl,
          fun b2 hb2 => hsome b2 hb2, fun _ => hble⟩

lemma blockInv_keep (b t t2 : Int) (o : Option AttemptRecord)
    (hI : BlockInv b t o) (ht : t ≤ t2) : BlockInv b t2 o := by
  obtain ⟨r, hr, hsome, hnone⟩ := hI
  exact ⟨r, hr, hsome, fun hn => le_trans (hnone hn) ht⟩

lemma blockInv_step (b t : Int) (m : AttemptMap) (ip : String)
    (op : GuardOp) (hI : BlockInv b t (m ip)) (ht : t ≤ opTime op)
    (hs : (applyOp m op ip).isSome = true) :
    BlockInv b (opTime op) (applyOp m op ip) := by
  obtain ⟨r, hr, hsome, hnone⟩ := hI
  cases op with
  | sweep now =>
    replace hs : (cleanOldAttempts m now ip).isSome = true := hs
    show BlockInv b now (cleanOldAttempts m now ip)
    have he := cleanOldAttempts_eval m now ip r hr
    by_cases h24 : 24 * 60 * 60 * 1000 < now - r.lastAttempt
    · rw [he, if_pos h24] at hs
      exact absurd hs (by decide)
    · rw [he, if_neg h24]
      exact ⟨r, rfl, hsome, fun hn => le_trans (hnone hn) ht⟩
  | outcome ip2 status now =>
    replace hs : (trackLoginResult m ip2 status now ip).isSome = true := hs
    show BlockInv b now (trackLoginResult m ip2 status now ip)
    by_cases hk : ip = ip2
    · subst hk
      unfold trackLoginResult at hs ⊢
      by_cases h20 : status = 200 ∨ status = 201
      · rw [if_pos h20, mapDelete_self] at hs
        exact absurd hs (by decide)
      · rw [if_neg h20] at hs ⊢
        by_cases h40 : status = 401 ∨ status = 403
        · rw [if_pos h40, mapSet_self]
          have hbump : bumpRecord (m ip) now =
              { r with count := r.count + 1, lastAttempt := now } := by
            rw [hr]
            rfl
          rw [hbump]
          exact ⟨{ r with count := r.count + 1, lastAttempt := now }, rfl,
            fun b2 hb2 => hsome b2 hb2,
            fun hn => le_trans (hnone hn) ht⟩
        · rw [if_neg h40]
          exact ⟨r, hr, hsome, fun hn => le_trans (hnone hn) ht⟩
    · rw [trackLoginResult_ne m ip2 status now ip hk]
      exact ⟨r, hr, hsome, fun hn => le_trans (hnone hn) ht⟩
  | check ip2 email pwd now =>
    replace hs : ((validateLogin m ip2 email pwd now).2 ip).isSome = true := hs
    show BlockInv b now ((validateLogin m ip2 email pwd now).2 ip)
    by_cases hk : ip = ip2
    · subst hk
      rw [validateLogin_some m ip email pwd now r hr] at hs ⊢
      cases hbu : r.blockedUntil with
      | some b1 =>
        by_cases hlt : now < b1
        · rw [blockPhase_active m ip email pwd now r b1 hbu hlt] at hs ⊢
          exact ⟨r, hr, hsome, fun hn => le_trans (hnone hn) ht⟩
        · rw [blockPhase_expired m ip email pwd now r b1 hbu (not_lt.mp hlt)]
            at hs ⊢
          exact blockInv_gateTail b m ip r email pwd now hr
            (le_trans (hsome b1 hbu) (not_lt.mp hlt)) hsome hs
      | none =>
        rw [blockPhase_noBlock m ip email pwd now r hbu] at hs ⊢
        exact blockInv_gateTail b m ip r email pwd now hr
          (le_trans (hnone hbu) ht) hsome hs
    · rw [validateLogin_snd_ne m ip2 email pwd now ip hk]
      exact ⟨r, hr, hsome, fun hn => le_trans (hnone hn) ht⟩

lemma blockInv_ops (b t : Int) (m : AttemptMap) (ip : String)
    (ops : List GuardOp) (hI : BlockInv b t (m ip))
    (ht : timesMono t ops) (ha : aliveThrough ip m ops) :
    ∃ t2, BlockInv b t2 (applyOps m ops ip) := by
  induction ops generalizing m t with
  | nil => exact ⟨t, hI⟩
  | cons op ops ih =>
    obtain ⟨ht1, ht2⟩ := ht
    obtain ⟨ha1, ha2⟩ := ha
    exact ih (opTime op) (applyOp m op)
      (blockInv_step b t m ip op hI ht1 ha1) ht2 ha2

/-! ## Concrete fixture maps for witnesses and counterexamples -/

/-- A map with one tracked identity: 7 failures at time 0, no lockout. -/
def fixA : AttemptMap :=
  fun k => if k = "1.2.3.4" then some ⟨7, 0, none⟩ else none

/-- A map with one tracked identity: 3 failures, blocked until 30000. -/
def fixB : AttemptMap :=
  fun k => if k = "1.2.3.4" then some ⟨3, 0, some 30000⟩ else none

/-- A map with one tracked identity: 5 failures at time 0, blocked until
900000 (a full 15-minute block). -/
def fixC : AttemptMap :=
  fun k => if k = "1.2.3.4" then some ⟨5, 0, some 900000⟩ else none

/-- A map with a fresh identity and a day-old identity. -/
def fixD : AttemptMap :=
  fun k =>
    if k = "1.2.3.4" then some ⟨2, 0, none⟩
    else if k = "5.6.7.8" then some ⟨4, -90000000, some 100⟩
    else none

/-- The single-operation sequence used by the C7 witness. -/
def fixOps : List GuardOp := [GuardOp.check "1.2.3.4" "a@b.c" "pw" 900000]

/-! ## Claims -/

/-- C1: for a tracked record that is neither actively blocked nor
idle-expired and has `failureCount >= 5`, `validateLogin` escalates:
`blockMinutes = min(15 * ceil(count / 5), 60)`, `blockedUntil` becomes
`now + blockMinutes` (in ms), `lastAttempt` becomes `now`, the decision
is Reject with `retryAfterSeconds = blockMinutes * 60`, and the new
`blockedUntil` lies strictly in the future. -/
theorem spec_c1_escalation (m : AttemptMap) (ip email pwd : String)
    (now : Int) (r : AttemptRecord) (hm : m ip = some r)
    (hnb : ∀ b, r.blockedUntil = some b → b ≤ now)
    (hid : now - r.lastAttempt ≤ 15 * 60 * 1000)
    (hc : 5 ≤ r.count) :
    validateLogin m ip email pwd now =
      (Decision.Reject (min (15 * ceilNat r.count 5) 60 * 60),
       mapSet m ip
         { r with
           blockedUntil :=
             some (now + (min (15 * ceilNat r.count 5) 60 * 60 * 1000 : Nat)),
           lastAttempt := now }) ∧
    now < now + (min (15 * ceilNat r.count 5) 60 * 60 * 1000 : Nat) := by
  constructor
  · rw [validateLogin_some m ip email pwd now r hm,
      blockPhase_inactive m ip email pwd now r hnb,
      gateTail_escalate m ip email pwd now r hid hc]
  · have h15 := fifteen_le_blockMinutes r.count hc
    omega

/-- Witness for C1 at a concrete record with 7 failures: a 30-minute
block (1800 seconds). -/
theorem spec_c1_escalation_w :
    validateLogin fixA "1.2.3.4" "a@b.c" "pw" 1000 =
      (Decision.Reject (min (15 * ceilNat 7 5) 60 * 60),
       mapSet fixA "1.2.3.4"
         { count := 7,
           lastAttempt := 1000,
           blockedUntil :=
             some (1000 + (min (15 * ceilNat 7 5) 60 * 60 * 1000 : Nat)) }) ∧
    (1000 : Int) < 1000 + (min (15 * ceilNat 7 5) 60 * 60 * 1000 : Nat) :=
  spec_c1_escalation fixA "1.2.3.4" "a@b.c" "pw" 1000 ⟨7, 0, none⟩
    (by decide) (fun b hb => nomatch hb) (by decide) (by decide)

/-- C2 counterexample: record blocked until 30000, checked at `now = 0`.
The claim predicts `retryAfterSeconds = ceil((30000 - 0) / 1000) = 30`,
but the code answers `60 * ceil(30000 / 60000) = 60`. -/
theorem spec_c2_cex :
    (validateLogin fixB "1.2.3.4" "a@b.c" "pw" 0).1 = Decision.Reject 60 ∧
    ceilNat (((30000 : Int) - 0)).toNat 1000 = 30 ∧
    (validateLogin fixB "1.2.3.4" "a@b.c" "pw" 0).1 ≠
      Decision.Reject (ceilNat (((30000 : Int) - 0)).toNat 1000) := by
  refine ⟨by decide, by decide, by decide⟩

/-- C2 (amended): under an active lockout the decision is Reject with
`retryAfterSeconds = 60 * ceil((blockedUntil - now) / 60000)` (minutes
left, rounded up, converted to seconds), and the map is unchanged. -/
theorem spec_c2_blocked (m : AttemptMap) (ip email pwd : String)
    (now : Int) (r : AttemptRecord) (b : Int) (hm : m ip = some r)
    (hb : r.blockedUntil = some b) (hlt : now < b) :
    validateLogin m ip email pwd now =
      (Decision.Reject (ceilNat (b - now).toNat (60 * 1000) * 60), m) := by
  rw [validateLogin_some m ip email pwd now r hm,
    blockPhase_active m ip email pwd now r b hb hlt]

/-- Witness for the amended C2 at the concrete blocked record. -/
theorem spec_c2_blocked_w :
    validateLogin fixB "1.2.3.4" "a@b.c" "pw" 0 =
      (Decision.Reject (ceilNat ((30000 : Int) - 0).toNat (60 * 1000) * 60),
       fixB) :=
  spec_c2_blocked fixB "1.2.3.4" "a@b.c" "pw" 0 ⟨3, 0, some 30000⟩ 30000
    (by decide) rfl (by decide)

/-- C3 counterexample: a record with `failureCount = 5` locked until
900000; at `now = 900000` the lockout has expired (`now >= blockedUntil`)
and no new failure has been recorded, yet `validateLogin` immediately
answers Reject again and re-locks until 1800000 with the count
unchanged. -/
theorem spec_c3_cex :
    fixC "1.2.3.4" = some ⟨5, 0, some 900000⟩ ∧
    ¬((900000 : Int) < 900000) ∧
    (validateLogin fixC "1.2.3.4" "a@b.c" "pw" 900000).1 =
      Decision.Reject 900 ∧
    (validateLogin fixC "1.2.3.4" "a@b.c" "pw" 900000).2 "1.2.3.4" =
      some ⟨5, 900000, some 1800000⟩ := by
  refine ⟨by decide, by decide, by decide, by decide⟩

/-- C3 (amended): once `now >= blockedUntil` the active-lockout branch
never fires again; if moreover more than 15 idle minutes have passed the
record is purged and a well-formed attempt admitted, and if not, a
retained `failureCount >= 5` makes `validateLogin` re-lock and Reject at
once — without any new failure — while `failureCount <= 4` drops the
identity back to plain tracking (well-formed attempt admitted, record
kept). -/
theorem spec_c3_expiry (m : AttemptMap) (ip email pwd : String)
    (now : Int) (r : AttemptRecord) (b : Int) (hm : m ip = some r)
    (hb : r.blockedUntil = some b) (hexp : b ≤ now) :
    (15 * 60 * 1000 < now - r.lastAttempt →
      validationErrors email pwd = [] →
      validateLogin m ip email pwd now = (Decision.Admit, mapDelete m ip)) ∧
    (now - r.lastAttempt ≤ 15 * 60 * 1000 → 5 ≤ r.count →
      (validateLogin m ip email pwd now).1 =
        Decision.Reject (min (15 * ceilNat r.count 5) 60 * 60)) ∧
    (now - r.lastAttempt ≤ 15 * 60 * 1000 → r.count < 5 →
      validationErrors email pwd = [] →
      validateLogin m ip email pwd now = (Decision.Admit, m)) := by
  have hnb : ∀ b2, r.blockedUntil = some b2 → b2 ≤ now := by
    intro b2 hb2
    rw [hb] at hb2
    rw [← Option.some.inj hb2]
    exact hexp
  refine ⟨fun hid he => ?_, fun hid hc => ?_, fun hid hc he => ?_⟩
  · rw [validateLogin_some m ip email pwd now r hm,
      blockPhase_inactive m ip email pwd now r hnb,
      gateTail_idle m ip email pwd now r hid,
      shapePhase_ok _ ip email pwd now he]
  · rw [validateLogin_some m ip email pwd now r hm,
      blockPhase_inactive m ip email pwd now r hnb,
      gateTail_escalate m ip email pwd now r hid hc]
  · rw [validateLogin_some m ip email pwd now r hm,
      blockPhase_inactive m ip email pwd now r hnb,
      gateTail_low m ip email pwd now r hid hc,
      shapePhase_ok m ip email pwd now he]

/-- Witness for the amended C3: the same expired-lockout record re-locks
at once (second branch of the amended statement). -/
theorem spec_c3_expiry_w :
    (validateLogin fixC "1.2.3.4" "a@b.c" "pw" 900000).1 =
      Decision.Reject (min (15 * ceilNat 5 5) 60 * 60) :=
  (spec_c3_expiry fixC "1.2.3.4" "a@b.c" "pw" 900000 ⟨5, 0, some 900000⟩
      900000 (by decide) rfl (by decide)).2.1 (by decide) (by decide)

/-- C4: recording a success (response status 200 or 201) deletes the
identity's record, and an immediately following well-formed
`validateLogin` for that identity admits, regardless of the prior
failure count. -/
theorem spec_c4_success (m : AttemptMap) (ip : String) (status : Nat)
    (now : Int) (hst : status = 200 ∨ status = 201) :
    trackLoginResult m ip status now ip = none ∧
    ∀ email pwd now2, validationErrors email pwd = [] →
      validateLogin (trackLoginResult m ip status now) ip email pwd now2 =
        (Decision.Admit, trackLoginResult m ip status now) := by
  have hdel : trackLoginResult m ip status now = mapDelete m ip := by
    unfold trackLoginResult
    rw [if_pos hst]
  constructor
  · rw [hdel, mapDelete_self]
  · intro email pwd now2 he
    rw [validateLogin_none _ ip email pwd now2 (by rw [hdel, mapDelete_self]),
      shapePhase_ok _ ip email pwd now2 he]

/-- Witness for C4: a record with 7 prior failures, cleared by a 200
response, then an admitted attempt. -/
theorem spec_c4_success_w :
    trackLoginResult fixA "1.2.3.4" 200 5 "1.2.3.4" = none ∧
    validateLogin (trackLoginResult fixA "1.2.3.4" 200 5) "1.2.3.4"
        "a@b.c" "pw" 6 =
      (Decision.Admit, trackLoginResult fixA "1.2.3.4" 200 5) := by
  have h := spec_c4_success fixA "1.2.3.4" 200 5 (Or.inl rfl)
  exact ⟨h.1, h.2 "a@b.c" "pw" 6 (by decide)⟩

/-- C5: a tracked record with no active lockout whose `lastAttempt` lies
strictly more than 15 minutes in the past is purged, and a well-formed
attempt is admitted, whatever the accumulated failure count. -/
theorem spec_c5_idle (m : AttemptMap) (ip email pwd : String) (now : Int)
    (r : AttemptRecord) (hm : m ip = some r)
    (hnb : ∀ b, r.blockedUntil = some b → b ≤ now)
    (hid : 15 * 60 * 1000 < now - r.lastAttempt)
    (he : validationErrors email pwd = []) :
    validateLogin m ip email pwd now = (Decision.Admit, mapDelete m ip) ∧
    mapDelete m ip ip = none := by
  constructor
  · rw [validateLogin_some m ip email pwd now r hm,
      blockPhase_inactive m ip email pwd now r hnb,
      gateTail_idle m ip email pwd now r hid,
      shapePhase_ok _ ip email pwd now he]
  · exact mapDelete_self m ip

/-- Witness for C5: the 7-failure record, idle for over 16 minutes, is
purged and the attempt admitted. -/
theorem spec_c5_idle_w :
    validateLogin fixA "1.2.3.4" "a@b.c" "pw" 1000000 =
      (Decision.Admit, mapDelete fixA "1.2.3.4") ∧
    mapDelete fixA "1.2.3.4" "1.2.3.4" = none :=
  spec_c5_idle fixA "1.2.3.4" "a@b.c" "pw" 1000000 ⟨7, 0, none⟩
    (by decide) (fun b hb => nomatch hb) (by decide) (by decide)

/-- C6 counterexample: a record with 7 failures, idle-expired (16+
minutes old), under a malformed attempt (empty email).  The record is
neither actively blocked nor escalated, yet the resulting count is 1,
not the incremented 8 the claim requires. -/
theorem spec_c6_cex :
    fixA "1.2.3.4" = some ⟨7, 0, none⟩ ∧
    validationErrors "" "pw" ≠ [] ∧
    (validateLogin fixA "1.2.3.4" "" "pw" 1000000).1 =
      Decision.Invalid ["Email es requerido"] ∧
    (validateLogin fixA "1.2.3.4" "" "pw" 1000000).2 "1.2.3.4" =
      some ⟨1, 1000000, none⟩ ∧
    (validateLogin fixA "1.2.3.4" "" "pwd" 1000000).2 "1.2.3.4" ≠
      some ⟨8, 1000000, none⟩ := by
  refine ⟨by decide, by decide, by decide, by decide, by decide⟩

/-- C6 (amended): a malformed attempt is answered Invalid with the error
list, never reaching the verifier, and bumps the record left by the
rate-limit phase: a missing record starts at count 1, a live
(non-blocked, non-escalated, non-idle) record is incremented by one with
its lockout field kept, and an idle-expired record is first purged so
its count restarts at 1. -/
theorem spec_c6_invalid (m : AttemptMap) (ip email pwd : String)
    (now : Int) (he : validationErrors email pwd ≠ []) :
    (m ip = none →
      validateLogin m ip email pwd now =
        (Decision.Invalid (validationErrors email pwd),
         mapSet m ip ⟨1, now, none⟩)) ∧
    (∀ r, m ip = some r → (∀ b, r.blockedUntil = some b → b ≤ now) →
      now - r.lastAttempt ≤ 15 * 60 * 1000 → r.count < 5 →
      validateLogin m ip email pwd now =
        (Decision.Invalid (validationErrors email pwd),
         mapSet m ip ⟨r.count + 1, now, r.blockedUntil⟩)) ∧
    (∀ r, m ip = some r → (∀ b, r.blockedUntil = some b → b ≤ now) →
      15 * 60 * 1000 < now - r.lastAttempt →
      validateLogin m ip email pwd now =
        (Decision.Invalid (validationErrors email pwd),
         mapSet (mapDelete m ip) ip ⟨1, now, none⟩)) := by
  refine ⟨fun hm => ?_, fun r hm hnb hid hc => ?_, fun r hm hnb hid => ?_⟩
  · rw [validateLogin_none m ip email pwd now hm,
      shapePhase_bad m ip email pwd now he, hm]
    rfl
  · rw [validateLogin_some m ip email pwd now r hm,
      blockPhase_inactive m ip email pwd now r hnb,
      gateTail_low m ip email pwd now r hid hc,
      shapePhase_bad m ip email pwd now he, hm]
    rfl
  · rw [validateLogin_some m ip email pwd now r hm,
      blockPhase_inactive m ip email pwd now r hnb,
      gateTail_idle m ip email pwd now r hid,
      shapePhase_bad _ ip email pwd now he, mapDelete_self]
    rfl

/-- Witness for the amended C6: a live record with 3 failures and an
expired lockout, under an empty-email attempt, is bumped to 4 with the
lockout field kept. -/
theorem spec_c6_invalid_w :
    validateLogin fixB "1.2.3.4" "" "pw" 40000 =
      (Decision.Invalid (validationErrors "" "pw"),
       mapSet fixB "1.2.3.4" ⟨3 + 1, 40000, some 30000⟩) :=
  (spec_c6_invalid fixB "1.2.3.4" "" "pw" 40000 (by decide)).2.1
    ⟨3, 0, some 30000⟩ (by decide)
    (fun b hb => by rw [← Option.some.inj hb]; decide)
    (by decide) (by decide)

/-- C7: along any operation sequence with a monotone clock during which
the identity's record stays alive, a set `blockedUntil` never
decreases: any later `blockedUntil` value is at least the earlier
one. -/
theorem spec_c7_blocked_mono (ip : String) (m : AttemptMap)
    (r : AttemptRecord) (b t0 : Int) (ops : List GuardOp)
    (hm : m ip = some r) (hb : r.blockedUntil = some b)
    (ht : timesMono t0 ops) (ha : aliveThrough ip m ops)
    (r2 : AttemptRecord) (b2 : Int)
    (hm2 : applyOps m ops ip = some r2)
    (hb2 : r2.blockedUntil = some b2) :
    b ≤ b2 := by
  have hI : BlockInv b t0 (m ip) := by
    refine ⟨r, hm, fun b3 hb3 => ?_, fun hn => ?_⟩
    · rw [hb] at hb3
      rw [← Option.some.inj hb3]
    · rw [hb] at hn
      exact absurd hn (by simp)
  obtain ⟨t2, r3, hr3, hsome3, _⟩ := blockInv_ops b t0 m ip ops hI ht ha
  rw [hm2] at hr3
  rw [← Option.some.inj hr3] at hsome3
  exact hsome3 b2 hb2

/-- Witness for C7: the expired 15-minute lockout of `fixC` is re-raised
to 1800000 by a check at its expiry instant; 900000 ≤ 1800000. -/
theorem spec_c7_blocked_mono_w : (900000 : Int) ≤ 1800000 :=
  spec_c7_blocked_mono "1.2.3.4" fixC ⟨5, 0, some 900000⟩ 900000 0 fixOps
    (by decide) rfl ⟨by decide, trivial⟩ ⟨by decide, trivial⟩
    ⟨5, 900000, some 1800000⟩ 1800000 (by decide) rfl

/-- C8: after `cleanOldAttempts m now`, whatever survives is exactly the
set of records whose `lastAttempt` is within 24 hours of `now`
(regardless of lockout state), each kept completely unchanged; every
record older than that is gone. -/
theorem spec_c8_sweep (m : AttemptMap) (now : Int) (ip : String)
    (r : AttemptRecord) :
    (cleanOldAttempts m now ip = some r →
      m ip = some r ∧ now - r.lastAttempt ≤ 24 * 60 * 60 * 1000) ∧
    (m ip = some r → now - r.lastAttempt ≤ 24 * 60 * 60 * 1000 →
      cleanOldAttempts m now ip = some r) ∧
    (m ip = some r → 24 * 60 * 60 * 1000 < now - r.lastAttempt →
      cleanOldAttempts m now ip = none) := by
  refine ⟨fun h => ?_, fun h hle => ?_, fun h hgt => ?_⟩
  · cases hm : m ip with
    | none =>
      rw [cleanOldAttempts_none m now ip hm] at h
      exact (nomatch h)
    | some a =>
      rw [cleanOldAttempts_eval m now ip a hm] at h
      by_cases h24 : 24 * 60 * 60 * 1000 < now - a.lastAttempt
      · rw [if_pos h24] at h
        exact (nomatch h)
      · rw [if_neg h24] at h
        have ha : a = r := Option.some.inj h
        subst ha
        exact ⟨rfl, by omega⟩
  · rw [cleanOldAttempts_eval m now ip r h, if_neg (by omega)]
  · rw [cleanOldAttempts_eval m now ip r h, if_pos hgt]

/-- Witness for C8 on `fixD`: the day-old record (even though it carries
a lockout field) is removed, the fresh record survives untouched. -/
theorem spec_c8_sweep_w :
    cleanOldAttempts fixD 1000 "5.6.7.8" = none ∧
    cleanOldAttempts fixD 1000 "1.2.3.4" = some ⟨2, 0, none⟩ :=
  ⟨(spec_c8_sweep fixD 1000 "5.6.7.8" ⟨4, -90000000, some 100⟩).2.2
      (by decide) (by decide),
   (spec_c8_sweep fixD 1000 "1.2.3.4" ⟨2, 0, none⟩).2.1
      (by decide) (by decide)⟩

/-- C9: a connectivity failure towards the credential verifier is
answered 503, and recording a 503 outcome leaves the attempt map — hence
every field of every record — exactly as it was. -/
theorem spec_c9_unavailable (m : AttemptMap) (ip : String) (now : Int) :
    loginErrorStatus true = 503 ∧
    trackLoginResult m ip (loginErrorStatus true) now = m := by
  refine ⟨rfl, ?_⟩
  unfold trackLoginResult loginErrorStatus
  rw [if_neg (by decide), if_neg (by decide)]

/-- C10: the effect of the observed response status on the attempt map:
exactly 200/201 delete the record, exactly 401/403 bump it (count + 1,
`lastAttempt := now`, lockout kept), and every other status leaves the
map untouched; in particular the 403 sent for a disabled user still
counts as a failure. -/
theorem spec_c10_status (m : AttemptMap) (ip : String) (status : Nat)
    (now : Int) :
    ((status = 200 ∨ status = 201) →
      trackLoginResult m ip status now = mapDelete m ip) ∧
    ((status = 401 ∨ status = 403) →
      trackLoginResult m ip status now =
        mapSet m ip (bumpRecord (m ip) now)) ∧
    (¬(status = 200 ∨ status = 201) → ¬(status = 401 ∨ status = 403) →
      trackLoginResult m ip status now = m) ∧
    trackLoginResult m ip disabledUserStatus now =
      mapSet m ip (bumpRecord (m ip) now) := by
  refine ⟨fun h => ?_, fun h => ?_, fun h1 h2 => ?_, ?_⟩
  · unfold trackLoginResult
    rw [if_pos h]
  · unfold trackLoginResult
    rw [if_neg (by omega), if_pos h]
  · unfold trackLoginResult
    rw [if_neg h1, if_neg h2]
  · unfold trackLoginResult disabledUserStatus
    rw [if_neg (by decide), if_pos (by decide)]

/-- Witness for C10 at statuses 200 (clear), 403 (count), 404 (no
effect) on the 7-failure record. -/
theorem spec_c10_status_w :
    trackLoginResult fixA "1.2.3.4" 200 5 = mapDelete fixA "1.2.3.4" ∧
    trackLoginResult fixA "1.2.3.4" 403 5 =
      mapSet fixA "1.2.3.4" (bumpRecord (fixA "1.2.3.4") 5) ∧
    trackLoginResult fixA "1.2.3.4" 404 5 = fixA :=
  ⟨(spec_c10_status fixA "1.2.3.4" 200 5).1 (Or.inl rfl),
   (spec_c10_status fixA "1.2.3.4" 403 5).2.1 (Or.inr rfl),
   (spec_c10_status fixA "1.2.3.4" 404 5).2.2.1 (by decide) (by decide)⟩

end EpefiGuard
